import Mathlib

/-!
Shallow embedding of the vault variant of `src/src/pages/Index.tsx` (the
second document in the file, lines 298-754): the `Index` component's state
(`activeTab`, `copiedCode`, `systemInfo`, `loading`), the `copyToClipboard`
handler, the `loadSystemInfo` fetch-and-store flow with its toast
notifications, the `useEffect` auto-fetch on tab change, and the vault
panel's `env_files` rendering branches.
-/

namespace Vault

/-- Values of parsed JSON, the possible results of `response.json()`
(lines 420-421).  The component stores the parsed value untyped
(`systemInfo` has type `any`), so the embedding keeps it as a raw JSON
value. -/
inductive JsonVal where
  | null : JsonVal
  | bool (b : Bool) : JsonVal
  | num (n : Int) : JsonVal
  | str (s : String) : JsonVal
  | arr (xs : List JsonVal) : JsonVal
  | obj (fields : List (String × JsonVal)) : JsonVal

/-- Outcome of the `fetch` call in `loadSystemInfo` (line 420): either the
request does not complete (`fetch` rejects), or a response arrives with an
HTTP status and a body; `response.json()` either rejects (body field
`none`, i.e. the body is not valid JSON) or yields a parsed value. -/
inductive FetchOutcome where
  | networkError : FetchOutcome
  | response (status : Nat) (body : Option JsonVal) : FetchOutcome

/-- Component state of `Index` (lines 405-409), extended with observation
counters: `inFlight` counts `loadSystemInfo` invocations that have started
but not yet run their `finally` block, `fetchCount` counts all started
invocations, and the toast counters record the success toast (lines
423-426) and the destructive error toast (lines 428-432).  `clipboard`
models the platform clipboard written by `navigator.clipboard.writeText`. -/
structure UIState where
  activeTab : String
  copiedCode : Option String
  systemInfo : Option JsonVal
  loading : Bool
  inFlight : Nat
  fetchCount : Nat
  successToasts : Nat
  errorToasts : Nat
  clipboard : Option String

/-- State after mounting `Index` (lines 405-408): tab `prompt`, nothing
copied, no payload, not loading. -/
def initialState : UIState :=
  { activeTab := "prompt"
    copiedCode := none
    systemInfo := none
    loading := false
    inFlight := 0
    fetchCount := 0
    successToasts := 0
    errorToasts := 0
    clipboard := none }

/-- Start of `loadSystemInfo` (line 418): `setLoading(true)` and the fetch
is issued, so one more invocation is in flight. -/
def startLoad (s : UIState) : UIState :=
  { s with
    loading := true
    inFlight := s.inFlight + 1
    fetchCount := s.fetchCount + 1 }

/-- Body of `loadSystemInfo` once the fetch settles (lines 419-432): a
rejected fetch or a body that is not valid JSON throws, control reaches
the `catch` block and the error toast fires; a parsed body is stored via
`setSystemInfo(data)` and the success toast fires.  The HTTP status is
never read by the source, which the unused `status` argument makes
visible. -/
def applyOutcome (s : UIState) : FetchOutcome → UIState
  | .networkError => { s with errorToasts := s.errorToasts + 1 }
  | .response _ none => { s with errorToasts := s.errorToasts + 1 }
  | .response _ (some v) =>
      { s with systemInfo := some v, successToasts := s.successToasts + 1 }

/-- The `finally` block of `loadSystemInfo` (lines 433-435):
`setLoading(false)`, and the invocation is no longer in flight. -/
def finishLoad (s : UIState) : UIState :=
  { s with loading := false, inFlight := s.inFlight - 1 }

/-- Condition under which control reaches the `catch` block of
`loadSystemInfo`: the request did not complete, or the response body was
not valid JSON.  No other statement in the `try` block can throw. -/
def fetchFails : FetchOutcome → Bool
  | .networkError => true
  | .response _ none => true
  | .response _ (some _) => false

/-- Events the component reacts to: a tab selection through the `Tabs`
control (line 460), a click on the vault `Refresh` button (lines 628-636),
and the settling of an in-flight fetch. -/
inductive Event where
  | selectTab (t : String) : Event
  | clickRefresh : Event
  | completeFetch (o : FetchOutcome) : Event

/-- One step of the component.  `selectTab` with a new value updates
`activeTab` and then runs the `useEffect` of lines 438-442, whose guard is
`activeTab === 'vault' && !systemInfo`; selecting the already active tab
does not change state (the `Tabs` control only reports value changes).
`clickRefresh` calls `loadSystemInfo` unless the button is disabled by
`disabled={loading}` (line 630).  `completeFetch` settles one in-flight
invocation: `applyOutcome` for the `try`/`catch` body, then `finishLoad`
for the `finally` block; with nothing in flight there is nothing to
settle. -/
def step (s : UIState) : Event → UIState
  | .selectTab t =>
      if t == s.activeTab then s
      else
        let s1 := { s with activeTab := t }
        if t == "vault" && s1.systemInfo.isNone then startLoad s1 else s1
  | .clickRefresh => if s.loading then s else startLoad s
  | .completeFetch o =>
      if s.inFlight == 0 then s else finishLoad (applyOutcome s o)

/-- Run a sequence of events from a state. -/
def run (s : UIState) (es : List Event) : UIState := es.foldl step s

/-- The `copyToClipboard` handler (lines 411-415), untimed view.  The
promise returned by `navigator.clipboard.writeText(text)` is neither
awaited nor error-handled, so whether the platform write succeeds
(`writeOk`) only determines the clipboard content; `setCopiedCode(id)`
runs unconditionally right after. -/
def copyToClipboard (writeOk : Bool) (text id : String) (s : UIState) :
    UIState :=
  let s1 := if writeOk then { s with clipboard := some text } else s
  { s1 with copiedCode := some id }

/-! Timed view of `copyToClipboard` (lines 411-415).  A call at
millisecond `t` with identifier `id` performs `setCopiedCode(id)` at `t`
and schedules `setCopiedCode(null)` for `t + 2000` via `setTimeout`; no
pending timer is ever cancelled.  `copiedAt calls T` is the value of
`copiedCode` at the end of millisecond `T`, obtained by advancing time one
millisecond at a time from 0 and applying, at each instant, first the
timer clears due then the synchronous calls made at that instant (a call
made at the very instant a timer fires runs its `setCopiedCode(id)` after
the timer's clear). -/

/-- True when some call in `calls` has a clear timer firing at instant
`u`, i.e. was made at `u - 2000`. -/
def clearsAt (calls : List (Nat × String)) (u : Nat) : Bool :=
  calls.any (fun c => c.1 + 2000 == u)

/-- The identifier set by the last `copyToClipboard` call made at instant
`u`, if any (later calls in event order overwrite earlier ones). -/
def setsAt (calls : List (Nat × String)) (u : Nat) : Option String :=
  calls.foldl (fun acc c => if c.1 == u then some c.2 else acc) none

/-- Value of `copiedCode` at the end of instant `u`, given its value `s`
just before `u`: timer clears due at `u` apply first, then the calls made
at `u`. -/
def copiedStep (calls : List (Nat × String)) (u : Nat) (s : Option String) :
    Option String :=
  match setsAt calls u with
  | some id => some id
  | none => if clearsAt calls u then none else s

/-- Value of `copiedCode` at the end of millisecond `T`, starting from the
mount value `null`. -/
def copiedAt (calls : List (Nat × String)) : Nat → Option String
  | 0 => copiedStep calls 0 none
  | T + 1 => copiedStep calls (T + 1) (copiedAt calls T)

/-! Vault panel rendering of the `env_files` section (lines 686-713). -/

/-- One `env_files` entry as the JSX reads it: the code accesses
`data.error` and `data.content`, either of which may be absent. -/
structure EnvFile where
  error : Option String
  content : Option String

/-- The parts of the diagnostic payload the vault panel renders, following
the fields accessed on `systemInfo` (lines 647-727). -/
structure DiagnosticPayload where
  external_ip : String
  directory_structure : JsonVal
  environment_variables : Option (List (String × String))
  env_files : Option (List (String × EnvFile))
  request_id : String
  current_dir : String

/-- Rendered form of one `env_files` entry: the error branch (line 701) or
the content branch (lines 703-707). -/
inductive EnvEntryView where
  | errorText (e : String) : EnvEntryView
  | fileContent (c : Option String) : EnvEntryView

/-- Rendered form of the `.env Files Found` section: the dedicated
no-files card (lines 692-694) or the list of per-file cards
(lines 696-711). -/
inductive EnvFilesView where
  | noFilesFound : EnvFilesView
  | files (entries : List (String × EnvEntryView)) : EnvFilesView

/-- JavaScript truthiness of the `data.error` field tested by the ternary
on line 700: an absent field is falsy, and a string is truthy exactly when
it is non-empty. -/
def jsTruthy : Option String → Bool
  | none => false
  | some s => !(s == "")

/-- Rendering of one entry (lines 700-708): `data.error ? <error text> :
<content block>`.  When the ternary takes the error branch the field is a
non-empty string, so the `getD` default is never reached. -/
def renderEnvFile (d : EnvFile) : EnvEntryView :=
  if jsTruthy d.error then EnvEntryView.errorText (d.error.getD "")
  else EnvEntryView.fileContent d.content

/-- The object the section iterates over: `systemInfo.env_files || ` an
empty object (lines 691 and 697). -/
def envFilesList (p : DiagnosticPayload) : List (String × EnvFile) :=
  p.env_files.getD []

/-- Rendering of the section (lines 691-712): the no-files card when
`Object.keys(...).length === 0`, otherwise one card per entry. -/
def renderEnvFilesSection (p : DiagnosticPayload) : EnvFilesView :=
  if (envFilesList p).length == 0 then EnvFilesView.noFilesFound
  else EnvFilesView.files
    ((envFilesList p).map (fun e => (e.1, renderEnvFile e.2)))

/-! Shape of a diagnostic payload.  These predicates are written from the
specification's data model (spec section 3, DiagnosticPayload), not from
the source: the source never validates the parsed body, and the predicates
exist to compare the specified failure condition with the implemented
one. -/

/-- Field lookup in a parsed JSON object. -/
def lookupField (fields : List (String × JsonVal)) (k : String) :
    Option JsonVal :=
  match fields with
  | [] => none
  | f :: rest => if f.1 == k then some f.2 else lookupField rest k

/-- The optional value is present and is a JSON string. -/
def isStr : Option JsonVal → Bool
  | some (.str _) => true
  | _ => false

/-- The optional value is present and is an object all of whose fields are
strings (the spec's mapping of string to string). -/
def isObjOfStrings : Option JsonVal → Bool
  | some (.obj fs) => fs.all (fun f => match f.2 with
      | .str _ => true
      | _ => false)
  | _ => false

/-- The value is one of the spec's `env_files` entry shapes: an object
with the single string field `content`, or one with the single string
field `error`. -/
def isEnvFileJson : JsonVal → Bool
  | .obj [(k, .str _)] => k == "content" || k == "error"
  | _ => false

/-- The optional value is present and is an object mapping file paths to
`env_files` entries. -/
def isEnvFilesJson : Option JsonVal → Bool
  | some (.obj fs) => fs.all (fun f => isEnvFileJson f.2)
  | _ => false

/-- Written from the spec's words (section 3): the parsed body has the
expected DiagnosticPayload shape, with fields `external_ip` (string),
`directory_structure` (present), `environment_variables` (string-to-string
mapping), `env_files` (mapping to content or error entries), `request_id`
(string) and `current_dir` (string). -/
def hasDiagnosticShape : JsonVal → Bool
  | .obj fs =>
      isStr (lookupField fs "external_ip") &&
      (lookupField fs "directory_structure").isSome &&
      isObjOfStrings (lookupField fs "environment_variables") &&
      isEnvFilesJson (lookupField fs "env_files") &&
      isStr (lookupField fs "request_id") &&
      isStr (lookupField fs "current_dir")
  | _ => false

/-! Concrete states and payloads used by witnesses and counterexamples. -/

/-- A state with one `loadSystemInfo` invocation in flight, as after the
first automatic trigger. -/
def loadingState : UIState := startLoad initialState

/-- An idle state that already holds a cached payload. -/
def cachedIdleState : UIState :=
  { initialState with systemInfo := some (JsonVal.str "cached") }

/-- A loading state that already holds a previously stored payload. -/
def cachedLoadingState : UIState :=
  startLoad { initialState with systemInfo := some (JsonVal.str "old") }

/-- A payload whose `env_files` mapping is empty. -/
def emptyFilesPayload : DiagnosticPayload :=
  { external_ip := "203.0.113.7"
    directory_structure := JsonVal.obj []
    environment_variables := some [("PATH", "/usr/bin")]
    env_files := some []
    request_id := "req-1"
    current_dir := "/app" }

/-- A payload with one `env_files` entry whose `error` field is the empty
string, which JavaScript treats as falsy. -/
def emptyErrorPayload : DiagnosticPayload :=
  { emptyFilesPayload with
    env_files := some [("/app/.env", { error := some "", content := some "SECRET=1" })] }

/-- A payload with one `env_files` entry carrying a non-empty error. -/
def errorEntryPayload : DiagnosticPayload :=
  { emptyFilesPayload with
    env_files := some [("/app/.env", { error := some "permission denied", content := none })] }

set_option maxRecDepth 10000

/-! Theorems settling the claims. -/

/-- C9: `copyToClipboard` sets the copied-acknowledgment flag to the given
id unconditionally; whether the underlying clipboard write succeeds or
fails does not affect the flag, because the write's promise is neither
awaited nor error-handled. -/
theorem copy_flag_set_unconditionally (writeOk : Bool) (text id : String)
    (s : UIState) :
    (copyToClipboard writeOk text id s).copiedCode = some id ∧
    (copyToClipboard false text id s).copiedCode
      = (copyToClipboard true text id s).copiedCode := by
  cases writeOk <;> exact ⟨rfl, rfl⟩

/-- C1 counterexample: from the mount state, selecting the vault tab
starts a fetch (loading becomes true, one invocation in flight); switching
to another tab and back to the vault tab while that fetch is still in
flight and the payload is still null starts a second invocation, so two
fetches are in flight at once. -/
theorem tab_reentry_starts_second_fetch_cex :
    (run initialState [Event.selectTab "vault", Event.selectTab "prompt"]).loading
      = true ∧
    (run initialState [Event.selectTab "vault", Event.selectTab "prompt"]).inFlight
      = 1 ∧
    (run initialState [Event.selectTab "vault", Event.selectTab "prompt",
      Event.selectTab "vault"]).inFlight = 2 ∧
    (run initialState [Event.selectTab "vault", Event.selectTab "prompt",
      Event.selectTab "vault"]).fetchCount = 2 := by
  decide

/-- C1 (amended): while `loading` is true the manual trigger is a no-op,
because the `Refresh` button is disabled; the automatic tab-change trigger
is not guarded by `loading`, and re-entering the vault tab with the
payload still null does start a second invocation. -/
theorem refresh_disabled_while_loading (s : UIState) (h : s.loading = true) :
    step s Event.clickRefresh = s := by
  simp [step, h]

/-- C1 witness: the amended property evaluated in a concrete loading
state. -/
theorem refresh_disabled_while_loading_witness :
    step loadingState Event.clickRefresh = loadingState :=
  refresh_disabled_while_loading loadingState rfl

/-- C10: `loadSystemInfo` sets `loading` at its start, and any settling of
an in-flight invocation (success, network error, or parse error) runs the
`finally` block and leaves `loading` false. -/
theorem loading_set_and_cleared (s : UIState) (o : FetchOutcome)
    (hin : s.inFlight ≠ 0) :
    (startLoad s).loading = true ∧
    (step s (Event.completeFetch o)).loading = false := by
  have h0 : (s.inFlight == 0) = false := by simpa using hin
  exact ⟨rfl, by simp [step, h0, finishLoad]⟩

/-- C10 witness: the property evaluated in a concrete loading state for a
network failure. -/
theorem loading_set_and_cleared_witness :
    (startLoad loadingState).loading = true ∧
    (step loadingState (Event.completeFetch FetchOutcome.networkError)).loading
      = false :=
  loading_set_and_cleared loadingState FetchOutcome.networkError (by decide)

/-- C4: an invocation that fails (network error or JSON parse error)
leaves `systemInfo` exactly as it was and fires exactly one error
toast. -/
theorem failed_fetch_preserves_payload (s : UIState) (o : FetchOutcome)
    (hin : s.inFlight ≠ 0) (hfail : fetchFails o = true) :
    (step s (Event.completeFetch o)).systemInfo = s.systemInfo ∧
    (step s (Event.completeFetch o)).errorToasts = s.errorToasts + 1 := by
  have h0 : (s.inFlight == 0) = false := by simpa using hin
  cases o with
  | networkError =>
      exact ⟨by simp [step, h0, finishLoad, applyOutcome],
             by simp [step, h0, finishLoad, applyOutcome]⟩
  | response st body =>
      cases body with
      | none =>
          exact ⟨by simp [step, h0, finishLoad, applyOutcome],
                 by simp [step, h0, finishLoad, applyOutcome]⟩
      | some v => simp [fetchFails] at hfail

/-- C4 witness: a failing completion in a state with a previously stored
payload keeps that payload. -/
theorem failed_fetch_preserves_payload_witness :
    (step cachedLoadingState (Event.completeFetch FetchOutcome.networkError)).systemInfo
      = cachedLoadingState.systemInfo ∧
    (step cachedLoadingState (Event.completeFetch FetchOutcome.networkError)).errorToasts
      = cachedLoadingState.errorToasts + 1 :=
  failed_fetch_preserves_payload cachedLoadingState FetchOutcome.networkError
    (by decide) rfl

/-- C8: a completed response is handled identically whatever its HTTP
status, because the status is never inspected; a non-success status with a
valid JSON body stores the parsed body, fires the success toast and no
error toast. -/
theorem status_never_inspected (s : UIState) (status : Nat) (v : JsonVal)
    (hin : s.inFlight ≠ 0) :
    step s (Event.completeFetch (FetchOutcome.response status (some v)))
      = step s (Event.completeFetch (FetchOutcome.response 200 (some v))) ∧
    (step s (Event.completeFetch (FetchOutcome.response status (some v)))).systemInfo
      = some v ∧
    (step s (Event.completeFetch (FetchOutcome.response status (some v)))).successToasts
      = s.successToasts + 1 ∧
    (step s (Event.completeFetch (FetchOutcome.response status (some v)))).errorToasts
      = s.errorToasts := by
  have h0 : (s.inFlight == 0) = false := by simpa using hin
  refine ⟨rfl, ?_, ?_, ?_⟩ <;> simp [step, h0, finishLoad, applyOutcome]

/-- C8 witness: a 404 response with JSON body is treated as success. -/
theorem status_never_inspected_witness :
    step loadingState
        (Event.completeFetch (FetchOutcome.response 404 (some (JsonVal.obj []))))
      = step loadingState
        (Event.completeFetch (FetchOutcome.response 200 (some (JsonVal.obj [])))) ∧
    (step loadingState
        (Event.completeFetch (FetchOutcome.response 404 (some (JsonVal.obj []))))).systemInfo
      = some (JsonVal.obj []) ∧
    (step loadingState
        (Event.completeFetch (FetchOutcome.response 404 (some (JsonVal.obj []))))).successToasts
      = loadingState.successToasts + 1 ∧
    (step loadingState
        (Event.completeFetch (FetchOutcome.response 404 (some (JsonVal.obj []))))).errorToasts
      = loadingState.errorToasts :=
  status_never_inspected loadingState 404 (JsonVal.obj []) (by decide)

/-- C5: switching to the vault tab with no cached payload starts exactly
one fetch, and switching to it with a cached payload starts none. -/
theorem vault_tab_selection_fetch_counts (s : UIState)
    (h : s.activeTab ≠ "vault") :
    (s.systemInfo = none →
      (step s (Event.selectTab "vault")).fetchCount = s.fetchCount + 1) ∧
    (s.systemInfo.isSome = true →
      (step s (Event.selectTab "vault")).fetchCount = s.fetchCount) := by
  have h1 : ("vault" == s.activeTab) = false := by
    simpa using Ne.symm h
  constructor
  · intro hnone
    simp [step, h1, hnone, startLoad]
  · intro hsome
    obtain ⟨p, hp⟩ := Option.isSome_iff_exists.mp hsome
    simp [step, h1, hp]

/-- C5 witness: the two branches evaluated from the mount state and from
an idle state with a cached payload. -/
theorem vault_tab_selection_fetch_counts_witness :
    (step initialState (Event.selectTab "vault")).fetchCount
      = initialState.fetchCount + 1 ∧
    (step cachedIdleState (Event.selectTab "vault")).fetchCount
      = cachedIdleState.fetchCount :=
  ⟨(vault_tab_selection_fetch_counts initialState (by decide)).1 rfl,
   (vault_tab_selection_fetch_counts cachedIdleState (by decide)).2 rfl⟩

/-- C6: a cached payload whose `env_files` mapping is absent or empty
renders the dedicated no-files card, not an empty list of entries. -/
theorem empty_env_files_renders_no_files (p : DiagnosticPayload)
    (h : p.env_files = none ∨ p.env_files = some []) :
    renderEnvFilesSection p = EnvFilesView.noFilesFound := by
  rcases h with h | h <;> simp [renderEnvFilesSection, envFilesList, h]

/-- C6 witness: the no-files card for a concrete payload with an empty
`env_files` mapping. -/
theorem empty_env_files_renders_no_files_witness :
    renderEnvFilesSection emptyFilesPayload = EnvFilesView.noFilesFound :=
  empty_env_files_renders_no_files emptyFilesPayload (Or.inr rfl)

/-- C7 counterexample: a payload with one `env_files` entry that carries
an error field whose value is the empty string; JavaScript truthiness
makes the ternary take the content branch, so the entry renders the file
content, not the error text, contrary to the claim. -/
theorem empty_error_field_renders_content_cex :
    (envFilesList emptyErrorPayload).map (fun e => e.2.error) = [some ""] ∧
    renderEnvFilesSection emptyErrorPayload
      = EnvFilesView.files
          [("/app/.env", EnvEntryView.fileContent (some "SECRET=1"))] :=
  ⟨rfl, rfl⟩

/-- C7 (amended): the section renders one card per entry of the mapping;
an entry whose error field is a non-empty string renders the error text,
and an entry with no error field, or with an empty-string error field
(falsy in JavaScript), renders its content field. -/
theorem env_files_entry_rendering (p : DiagnosticPayload) (path : String)
    (d : EnvFile) (e : String) (hmem : (path, d) ∈ envFilesList p) :
    renderEnvFilesSection p
      = EnvFilesView.files
          ((envFilesList p).map (fun x => (x.1, renderEnvFile x.2))) ∧
    (path, renderEnvFile d)
      ∈ (envFilesList p).map (fun x => (x.1, renderEnvFile x.2)) ∧
    (d.error = some e → e ≠ "" → renderEnvFile d = EnvEntryView.errorText e) ∧
    (d.error = none ∨ d.error = some "" →
      renderEnvFile d = EnvEntryView.fileContent d.content) := by
  refine ⟨?_, ?_, ?_, ?_⟩
  · have hne : ((envFilesList p).length == 0) = false := by
      have : envFilesList p ≠ [] := by
        intro hnil
        rw [hnil] at hmem
        exact absurd hmem (List.not_mem_nil _)
      simpa [List.length_eq_zero] using this
    simp [renderEnvFilesSection, hne]
  · exact List.mem_map_of_mem _ hmem
  · intro he hne'
    simp [renderEnvFile, jsTruthy, he, hne']
  · intro hor
    rcases hor with h | h <;> simp [renderEnvFile, jsTruthy, h]

/-- C7 witness: a concrete entry with a non-empty error renders the error
text, and the whole section renders the mapped list. -/
theorem env_files_entry_rendering_witness :
    renderEnvFilesSection errorEntryPayload
      = EnvFilesView.files
          ((envFilesList errorEntryPayload).map
            (fun x => (x.1, renderEnvFile x.2))) ∧
    renderEnvFile (EnvFile.mk (some "permission denied") none)
      = EnvEntryView.errorText "permission denied" :=
  ⟨(env_files_entry_rendering errorEntryPayload "/app/.env"
      (EnvFile.mk (some "permission denied") none) "permission denied"
      (by simp [envFilesList, errorEntryPayload, emptyFilesPayload])).1,
   (env_files_entry_rendering errorEntryPayload "/app/.env"
      (EnvFile.mk (some "permission denied") none) "permission denied"
      (by simp [envFilesList, errorEntryPayload, emptyFilesPayload])).2.2.1
      rfl (by decide)⟩

/-- C3 counterexample: a completed response whose body is valid JSON but
lacks the expected DiagnosticPayload shape (here the JSON number 42) is
not treated as a failure: the body is stored, the success toast fires and
no error toast does, so the fetch does not fail on a missing expected
shape. -/
theorem shape_mismatch_still_succeeds_cex :
    hasDiagnosticShape (JsonVal.num 42) = false ∧
    (step loadingState
        (Event.completeFetch (FetchOutcome.response 200 (some (JsonVal.num 42))))).errorToasts
      = 0 ∧
    (step loadingState
        (Event.completeFetch (FetchOutcome.response 200 (some (JsonVal.num 42))))).successToasts
      = 1 ∧
    (step loadingState
        (Event.completeFetch (FetchOutcome.response 200 (some (JsonVal.num 42))))).systemInfo
      = some (JsonVal.num 42) :=
  ⟨rfl, rfl, rfl, rfl⟩

/-- C3 (amended): an invocation fails exactly when the request does not
complete or the response body is not valid JSON; the payload shape is
never validated.  Every settling fires exactly one toast: the error toast
exactly on failure, the success toast exactly on success, and the handler
is a total function of the outcome, so no outcome crashes the UI. -/
theorem fetch_failure_classification (s : UIState) (o : FetchOutcome)
    (hin : s.inFlight ≠ 0) :
    ((step s (Event.completeFetch o)).errorToasts = s.errorToasts + 1 ↔
      fetchFails o = true) ∧
    ((step s (Event.completeFetch o)).successToasts = s.successToasts + 1 ↔
      fetchFails o = false) ∧
    (step s (Event.completeFetch o)).errorToasts
        + (step s (Event.completeFetch o)).successToasts
      = s.errorToasts + s.successToasts + 1 := by
  have h0 : (s.inFlight == 0) = false := by simpa using hin
  cases o with
  | networkError =>
      simp [step, h0, finishLoad, applyOutcome, fetchFails]
      omega
  | response st body =>
      cases body with
      | none =>
          simp [step, h0, finishLoad, applyOutcome, fetchFails]
          omega
      | some v =>
          simp [step, h0, finishLoad, applyOutcome, fetchFails]
          omega

/-- C3 witness: the classification evaluated for a concrete network
failure in a loading state. -/
theorem fetch_failure_classification_witness :
    ((step loadingState (Event.completeFetch FetchOutcome.networkError)).errorToasts
        = loadingState.errorToasts + 1 ↔
      fetchFails FetchOutcome.networkError = true) ∧
    ((step loadingState (Event.completeFetch FetchOutcome.networkError)).successToasts
        = loadingState.successToasts + 1 ↔
      fetchFails FetchOutcome.networkError = false) ∧
    (step loadingState (Event.completeFetch FetchOutcome.networkError)).errorToasts
        + (step loadingState (Event.completeFetch FetchOutcome.networkError)).successToasts
      = loadingState.errorToasts + loadingState.successToasts + 1 :=
  fetch_failure_classification loadingState FetchOutcome.networkError (by decide)

/-! Helper lemmas about the timed copy model. -/

/-- The fold underlying `setsAt` leaves its accumulator unchanged when no
call was made at instant `u`. -/
theorem setsFold_const (u : Nat) (calls : List (Nat × String)) :
    ∀ a : Option String, (∀ c ∈ calls, c.1 ≠ u) →
      calls.foldl (fun acc c => if c.1 == u then some c.2 else acc) a = a := by
  induction calls with
  | nil => intro a _; rfl
  | cons c rest ih =>
      intro a h
      have hc : (c.1 == u) = false := by
        simpa using h c (List.mem_cons_self c rest)
      simp only [List.foldl_cons, hc, Bool.false_eq_true, if_false]
      exact ih a (fun d hd => h d (List.mem_cons_of_mem c hd))

/-- No call at instant `u` means no identifier is set at `u`. -/
theorem setsAt_eq_none (calls : List (Nat × String)) (u : Nat)
    (h : ∀ c ∈ calls, c.1 ≠ u) : setsAt calls u = none :=
  setsFold_const u calls none h

/-- The last call in event order wins the set at its instant. -/
theorem setsAt_append_last (pre : List (Nat × String)) (t : Nat)
    (id : String) : setsAt (pre ++ [(t, id)]) t = some id := by
  unfold setsAt
  rw [List.foldl_append]
  simp

/-- No call made at `u - 2000` means no clear timer fires at `u`. -/
theorem clearsAt_eq_false (calls : List (Nat × String)) (u : Nat)
    (h : ∀ c ∈ calls, c.1 + 2000 ≠ u) : clearsAt calls u = false := by
  unfold clearsAt
  rw [List.any_eq_false]
  intro c hc
  simpa using h c hc

/-- C2 counterexample: with a copy of id `schema` at 0 ms and a copy of id
`prompt` at 500 ms, the second call sets the flag immediately, but the
first call's uncancelled timer clears it at 2000 ms, only 1500 ms after
the second call, sooner than the 2000 ms the claim requires. -/
theorem early_clear_of_second_copy_cex :
    copiedAt [(0, "schema"), (500, "prompt")] 500 = some "prompt" ∧
    copiedAt [(0, "schema"), (500, "prompt")] 1999 = some "prompt" ∧
    copiedAt [(0, "schema"), (500, "prompt")] 2000 = none := by
  refine ⟨by decide, by decide, by decide⟩

/-- C2 (amended): a `copyToClipboard` call at `t` sets the flag to its id
immediately, and when no other call happened in the 2000 ms before `t`
the flag still holds that id at every instant up to (but excluding)
`t + 2000`; a pending timer from a call within the preceding 2000 ms may
clear it earlier. -/
theorem copied_flag_set_and_persists (pre : List (Nat × String)) (t : Nat)
    (id : String) (T : Nat) (hpre : ∀ c ∈ pre, c.1 + 2000 ≤ t)
    (htT : t ≤ T) (hT : T < t + 2000) :
    copiedAt (pre ++ [(t, id)]) T = some id := by
  revert hT
  induction T, htT using Nat.le_induction with
  | base =>
      intro _
      have hset := setsAt_append_last pre t id
      cases t with
      | zero => simp [copiedAt, copiedStep, hset]
      | succ n => simp [copiedAt, copiedStep, hset]
  | succ n hn ih =>
      intro hlt
      have hprev : copiedAt (pre ++ [(t, id)]) n = some id :=
        ih (Nat.lt_of_succ_lt hlt)
      have hset : setsAt (pre ++ [(t, id)]) (n + 1) = none := by
        apply setsAt_eq_none
        intro c hc
        rcases List.mem_append.mp hc with h1 | h2
        · have := hpre c h1
          omega
        · have h2' : c = (t, id) := by simpa using h2
          subst h2'
          show t ≠ n + 1
          omega
      have hclear : clearsAt (pre ++ [(t, id)]) (n + 1) = false := by
        apply clearsAt_eq_false
        intro c hc
        rcases List.mem_append.mp hc with h1 | h2
        · have := hpre c h1
          omega
        · have h2' : c = (t, id) := by simpa using h2
          subst h2'
          show t + 2000 ≠ n + 1
          omega
      simp [copiedAt, copiedStep, hset, hclear, hprev]

/-- C2 witness: a single copy at 100 ms still shows its id at 2099 ms. -/
theorem copied_flag_set_and_persists_witness :
    copiedAt ([] ++ [(100, "prompt")]) 2099 = some "prompt" :=
  copied_flag_set_and_persists [] 100 "prompt" 2099
    (by intro c hc; exact absurd hc (List.not_mem_nil c))
    (by omega) (by omega)

end Vault
